import Mathlib

/-!
Verification development for the System Monitor & Network Analyzer
(`src/code.py`).  The Python source is shallowly embedded below:
Python floats are modelled as rationals (ℚ), Python ints as ℤ, and the
OS-facing measurement calls (subprocess output, `/proc` reads, `os.statvfs`,
socket connects, `input()`) are modelled as explicit inputs to the embedded
functions, since they are the external environment of the program.
-/

/-- The `SystemSnapshot` dataclass (code.py lines 27-40): one point-in-time set
of resource measurements. -/
structure SystemSnapshot where
  timestamp : String
  cpu_percent : ℚ
  memory_percent : ℚ
  memory_used_gb : ℚ
  memory_total_gb : ℚ
  disk_percent : ℚ
  disk_used_gb : ℚ
  disk_total_gb : ℚ
  network_bytes_sent : ℤ
  network_bytes_recv : ℤ
  active_connections : ℤ
  deriving DecidableEq, Repr

/-- The `alert_thresholds` dict of `SystemMonitor.__init__` (lines 50-54):
one percentage per metric name in {cpu, memory, disk}. -/
structure AlertThresholds where
  cpu : ℚ
  memory : ℚ
  disk : ℚ
  deriving DecidableEq, Repr

/-- The three metric names the alert machinery ranges over. -/
inductive AlertMetric where
  | cpu
  | memory
  | disk
  deriving DecidableEq, Repr

/-- Mutable state of a `SystemMonitor` instance (lines 46-55): the snapshot
history, the alert enable flag and the thresholds.  (`platform` and
`baseline_network` are environment data not touched by the claims.) -/
structure MonitorState where
  snapshots : List SystemSnapshot
  alerts_enabled : Bool
  alert_thresholds : AlertThresholds
  deriving DecidableEq, Repr

/-- The monitor state right after `SystemMonitor.__init__` (lines 46-55):
empty history, alerts enabled, thresholds cpu=80, memory=85, disk=90. -/
def init_monitor : MonitorState :=
  { snapshots := []
    alerts_enabled := true
    alert_thresholds := { cpu := 80, memory := 85, disk := 90 } }

/-- The raw measurements one `take_snapshot` call obtains from the OS-facing
helpers (lines 290-297): `get_cpu_usage`, `get_memory_usage`,
`get_disk_usage`, `_get_network_stats`, `get_active_connections`, and the
formatted `datetime.now()` timestamp.  These come from the environment, so
the embedding takes them as input. -/
structure Measurements where
  timestamp : String
  cpu : ℚ
  mem_percent : ℚ
  mem_used : ℚ
  mem_total : ℚ
  disk_percent : ℚ
  disk_used : ℚ
  disk_total : ℚ
  bytes_sent : ℤ
  bytes_recv : ℤ
  connections : ℤ
  deriving DecidableEq, Repr

/-- Assembly of the `SystemSnapshot` literal in `take_snapshot`
(lines 296-308). -/
def build_snapshot (m : Measurements) : SystemSnapshot :=
  { timestamp := m.timestamp
    cpu_percent := m.cpu
    memory_percent := m.mem_percent
    memory_used_gb := m.mem_used
    memory_total_gb := m.mem_total
    disk_percent := m.disk_percent
    disk_used_gb := m.disk_used
    disk_total_gb := m.disk_total
    network_bytes_sent := m.bytes_sent
    network_bytes_recv := m.bytes_recv
    active_connections := m.connections }

/-- The history update of `take_snapshot` (lines 310-314): append, then
`self.snapshots = self.snapshots[-100:]` when the length exceeds 100. -/
def capAppend (l : List SystemSnapshot) (s : SystemSnapshot) :
    List SystemSnapshot :=
  let l2 := l ++ [s]
  if l2.length > 100 then l2.drop (l2.length - 100) else l2

/-- An alert record: which metric fired and at what snapshot value.  The
source formats these as strings (lines 326-333); the metric tag and the
embedded value are the data content of each string. -/
structure Alert where
  metric : AlertMetric
  value : ℚ
  deriving DecidableEq, Repr

/-- Embedding of `SystemMonitor._check_alerts` (lines 322-338): one alert per metric
whose snapshot value strictly exceeds its threshold, accumulated in the
fixed order cpu, memory, disk. -/
def check_alerts (s : SystemSnapshot) (th : AlertThresholds) : List Alert :=
  (if s.cpu_percent > th.cpu then [{ metric := .cpu, value := s.cpu_percent }] else []) ++
  (if s.memory_percent > th.memory then [{ metric := .memory, value := s.memory_percent }] else []) ++
  (if s.disk_percent > th.disk then [{ metric := .disk, value := s.disk_percent }] else [])

/-- Embedding of `SystemMonitor.take_snapshot` (lines 288-320): build the snapshot from
the measurements, append it to the history (evicting down to the last 100),
run `_check_alerts` when alerts are enabled, and return the snapshot.  The
returned triple is (new monitor state, returned snapshot, emitted alerts). -/
def take_snapshot (st : MonitorState) (m : Measurements) :
    MonitorState × SystemSnapshot × List Alert :=
  let snapshot := build_snapshot m
  let snaps := capAppend st.snapshots snapshot
  let alerts := if st.alerts_enabled then check_alerts snapshot st.alert_thresholds else []
  ({ st with snapshots := snaps }, snapshot, alerts)

/-- Repeated monitoring: the monitor state after a sequence of
`take_snapshot` calls, one per measurement. -/
def run_monitor (st : MonitorState) (ms : List Measurements) : MonitorState :=
  ms.foldl (fun st m => (take_snapshot st m).1) st

lemma capAppend_lastN (xs : List SystemSnapshot) (s : SystemSnapshot) :
    capAppend (xs.drop (xs.length - 100)) s =
      (xs ++ [s]).drop ((xs ++ [s]).length - 100) := by
  by_cases h : xs.length < 100
  · have h0 : xs.length - 100 = 0 := by omega
    have h1 : (xs.length + 1) - 100 = 0 := by omega
    simp [capAppend, h0, h1, List.length_append]
  · push_neg at h
    have hlen : (xs.drop (xs.length - 100)).length = 100 := by
      simp [List.length_drop]
      omega
    have hcond : (xs.drop (xs.length - 100) ++ [s]).length > 100 := by
      simp [List.length_append, hlen]
    simp only [capAppend, List.length_append, hlen, List.length_cons,
      List.length_nil]
    rw [if_pos (by omega)]
    have hstep : (100 + 1) - 100 = 1 := by omega
    rw [hstep]
    rw [List.drop_append_of_le_length (by omega : 1 ≤ (xs.drop (xs.length - 100)).length)]
    rw [List.drop_drop]
    rw [List.drop_append_of_le_length (by omega : xs.length + 1 - 100 ≤ xs.length)]
    congr 2
    omega

lemma foldl_capAppend (xs : List SystemSnapshot) :
    xs.foldl capAppend [] = xs.drop (xs.length - 100) := by
  induction xs using List.reverseRecOn with
  | nil => rfl
  | append_singleton xs x ih =>
    rw [List.foldl_append, List.foldl_cons, List.foldl_nil, ih,
      capAppend_lastN]

lemma run_monitor_snapshots (ms : List Measurements) :
    ∀ st : MonitorState,
      (run_monitor st ms).snapshots =
        ms.foldl (fun l m => capAppend l (build_snapshot m)) st.snapshots := by
  induction ms with
  | nil => intro st; rfl
  | cons m ms ih =>
    intro st
    show (run_monitor (take_snapshot st m).1 ms).snapshots = _
    rw [ih]
    rfl

/-- Claim C1: starting from an empty history, after any sequence of N
snapshot appends performed via `take_snapshot` the stored history equals the
last min(N,100) appended snapshots in original append order (so it never
exceeds 100 entries, and for N > 100 it is exactly the last 100, FIFO
eviction of the oldest). -/
theorem history_bounded_fifo (ms : List Measurements) :
    (run_monitor init_monitor ms).snapshots =
      (ms.map build_snapshot).drop (ms.length - 100) ∧
    (run_monitor init_monitor ms).snapshots.length ≤ 100 := by
  have hmain : (run_monitor init_monitor ms).snapshots =
      (ms.map build_snapshot).drop (ms.length - 100) := by
    rw [run_monitor_snapshots]
    show ms.foldl (fun l m => capAppend l (build_snapshot m)) [] = _
    rw [← List.foldl_map (f := build_snapshot) (g := capAppend)]
    rw [foldl_capAppend]
    simp [List.length_map]
  refine ⟨hmain, ?_⟩
  rw [hmain]
  simp [List.length_drop, List.length_map]
  omega

/-- A fixed concrete measurement set, used for concrete evaluations. -/
def sample_measurements : Measurements :=
  { timestamp := "2024-01-01 00:00:00"
    cpu := 10
    mem_percent := 20
    mem_used := 1
    mem_total := 8
    disk_percent := 30
    disk_used := 10
    disk_total := 100
    bytes_sent := 0
    bytes_recv := 0
    connections := 0 }

/-- Claim C2, counterexample: `take_snapshot` does have a side effect on the
history — starting from the freshly initialised monitor (empty history), one
call leaves the history different from (one longer than) before. -/
theorem take_snapshot_mutates_history :
    (take_snapshot init_monitor sample_measurements).1.snapshots ≠
      init_monitor.snapshots := by
  decide

/-- Claim C2 as amended: `take_snapshot` returns the snapshot built from the
measurements, but it is not history-pure — it appends that snapshot to the
history (with the 100-entry FIFO eviction of `capAppend`); the thresholds
and the alerts-enabled flag are the only state it leaves unchanged. -/
theorem take_snapshot_appends (st : MonitorState) (m : Measurements) :
    (take_snapshot st m).1.snapshots = capAppend st.snapshots (build_snapshot m) ∧
    (take_snapshot st m).2.1 = build_snapshot m ∧
    (take_snapshot st m).1.alert_thresholds = st.alert_thresholds ∧
    (take_snapshot st m).1.alerts_enabled = st.alerts_enabled :=
  ⟨rfl, rfl, rfl, rfl⟩

/-- The snapshot value `_check_alerts` compares for a given metric. -/
def metric_value (s : SystemSnapshot) : AlertMetric → ℚ
  | .cpu => s.cpu_percent
  | .memory => s.memory_percent
  | .disk => s.disk_percent

/-- The threshold `_check_alerts` compares against for a given metric. -/
def threshold_value (th : AlertThresholds) : AlertMetric → ℚ
  | .cpu => th.cpu
  | .memory => th.memory
  | .disk => th.disk

/-- Whether a snapshot strictly exceeds the threshold of a metric: the firing
condition of `_check_alerts` (lines 326, 329, 332). -/
def exceeds (s : SystemSnapshot) (th : AlertThresholds) (m : AlertMetric) : Bool :=
  decide (metric_value s m > threshold_value th m)

/-- A snapshot whose cpu/memory/disk percentages are the given values and
whose remaining fields are defaults, mirroring the shorthand `Snapshot(cpu=85)`
that the spec uses for such a value. -/
def snap_with (cpu mem disk : ℚ) : SystemSnapshot :=
  { timestamp := "2024-01-01 00:00:00"
    cpu_percent := cpu
    memory_percent := mem
    memory_used_gb := 0
    memory_total_gb := 0
    disk_percent := disk
    disk_used_gb := 0
    disk_total_gb := 0
    network_bytes_sent := 0
    network_bytes_recv := 0
    active_connections := 0 }

/-- Claim C3: `_check_alerts` emits one alert per metric exactly when the
snapshot value strictly exceeds the threshold of that metric (equality emits
nothing), in the fixed order cpu, memory, disk, with no deduplication; in
particular cpu=85 against threshold 80 yields exactly the one cpu alert, and
cpu=50 (or cpu=80, the equality case) yields none. -/
theorem check_alerts_spec (s : SystemSnapshot) (th : AlertThresholds) :
    (check_alerts s th).map Alert.metric =
      [AlertMetric.cpu, AlertMetric.memory, AlertMetric.disk].filter (exceeds s th) ∧
    (∀ m : AlertMetric,
      ((check_alerts s th).filter (fun a => decide (a.metric = m))).length =
        if exceeds s th m then 1 else 0) ∧
    (check_alerts (snap_with 85 0 0) init_monitor.alert_thresholds).map Alert.metric =
      [AlertMetric.cpu] ∧
    check_alerts (snap_with 50 0 0) init_monitor.alert_thresholds = [] ∧
    check_alerts (snap_with 80 0 0) init_monitor.alert_thresholds = [] := by
  refine ⟨?_, ?_, by decide, by decide, by decide⟩
  · by_cases hc : s.cpu_percent > th.cpu <;>
      by_cases hm : s.memory_percent > th.memory <;>
        by_cases hd : s.disk_percent > th.disk <;>
          simp [check_alerts, exceeds, metric_value, threshold_value, hc, hm, hd]
  · intro m
    cases m <;>
      by_cases hc : s.cpu_percent > th.cpu <;>
        by_cases hm : s.memory_percent > th.memory <;>
          by_cases hd : s.disk_percent > th.disk <;>
            simp [check_alerts, exceeds, metric_value, threshold_value, hc, hm, hd]

/-- One interactive answer in `configure_alerts` (lines 661-673): the user
either presses Enter (empty), types something `float()` rejects
(nonNumeric, the `ValueError` branch), or types a number. -/
inductive ThresholdInput where
  | empty
  | nonNumeric
  | numeric (v : ℚ)

/-- Writing one threshold entry of the `alert_thresholds` dict. -/
def set_threshold (th : AlertThresholds) (m : AlertMetric) (v : ℚ) : AlertThresholds :=
  match m with
  | .cpu => { th with cpu := v }
  | .memory => { th with memory := v }
  | .disk => { th with disk := v }

/-- Reading one threshold entry of the `alert_thresholds` dict. -/
def get_threshold (th : AlertThresholds) : AlertMetric → ℚ
  | .cpu => th.cpu
  | .memory => th.memory
  | .disk => th.disk

/-- The body of the per-metric loop of `SystemAnalyzer.configure_alerts`
(lines 661-673): empty input keeps the current value; a parsed number is
stored only when `0 < threshold <= 100`, otherwise rejected with no change;
a `ValueError` (non-numeric input) is rejected with no change. -/
def configure_metric (th : AlertThresholds) (m : AlertMetric)
    (inp : ThresholdInput) : AlertThresholds :=
  match inp with
  | .empty => th
  | .nonNumeric => th
  | .numeric v => if 0 < v ∧ v ≤ 100 then set_threshold th m v else th

/-- The full threshold pass of `configure_alerts` (line 661): the metrics
are processed in the order cpu, memory, disk, each with its own input. -/
def configure_alerts (th : AlertThresholds)
    (inputs : AlertMetric → ThresholdInput) : AlertThresholds :=
  [AlertMetric.cpu, AlertMetric.memory, AlertMetric.disk].foldl
    (fun t m => configure_metric t m (inputs m)) th

/-- An input the claim calls invalid: non-numeric, or a number outside
(0, 100]. -/
def invalid_input : ThresholdInput → Prop
  | .empty => False
  | .nonNumeric => True
  | .numeric v => ¬(0 < v ∧ v ≤ 100)

lemma configure_metric_invalid (th : AlertThresholds) (m : AlertMetric)
    (inp : ThresholdInput) (h : invalid_input inp) :
    configure_metric th m inp = th := by
  cases inp with
  | empty => rfl
  | nonNumeric => rfl
  | numeric v =>
    simp only [invalid_input] at h
    simp [configure_metric, h]

/-- Claim C5: for every metric and proposed numeric value v, the threshold
configuration stores v exactly when 0 < v ≤ 100 (leaving the other metrics
untouched); a numeric value outside (0,100] or a non-numeric input is
rejected with the state unchanged, and a full configuration pass whose
inputs are all invalid leaves every stored threshold unchanged. -/
theorem configure_alerts_validation (th : AlertThresholds) (m : AlertMetric) (v : ℚ) :
    (0 < v ∧ v ≤ 100 →
      get_threshold (configure_metric th m (.numeric v)) m = v ∧
      ∀ m2, m2 ≠ m →
        get_threshold (configure_metric th m (.numeric v)) m2 = get_threshold th m2) ∧
    (¬(0 < v ∧ v ≤ 100) → configure_metric th m (.numeric v) = th) ∧
    configure_metric th m .nonNumeric = th ∧
    ∀ inputs : AlertMetric → ThresholdInput,
      (∀ m2, invalid_input (inputs m2)) → configure_alerts th inputs = th := by
  refine ⟨?_, ?_, rfl, ?_⟩
  · intro hv
    constructor
    · cases m <;> simp [configure_metric, hv, set_threshold, get_threshold]
    · intro m2 hne
      cases m <;> cases m2 <;>
        simp_all [configure_metric, hv, set_threshold, get_threshold]
  · intro hv
    simp [configure_metric, hv]
  · intro inputs hinv
    show configure_metric (configure_metric (configure_metric th .cpu (inputs .cpu))
        .memory (inputs .memory)) .disk (inputs .disk) = th
    rw [configure_metric_invalid _ _ _ (hinv .cpu),
      configure_metric_invalid _ _ _ (hinv .memory),
      configure_metric_invalid _ _ _ (hinv .disk)]

/-- Witness for `configure_alerts_validation`: a valid cpu value 50 is
stored, 150 is rejected, and an all-non-numeric pass leaves the initial
thresholds unchanged. -/
theorem configure_alerts_validation_witness :
    get_threshold (configure_metric { cpu := 80, memory := 85, disk := 90 }
        AlertMetric.cpu (.numeric 50)) AlertMetric.cpu = 50 ∧
    configure_metric { cpu := 80, memory := 85, disk := 90 }
        AlertMetric.cpu (.numeric 150) = { cpu := 80, memory := 85, disk := 90 } ∧
    configure_alerts { cpu := 80, memory := 85, disk := 90 }
        (fun _ => ThresholdInput.nonNumeric) = { cpu := 80, memory := 85, disk := 90 } := by
  have h1 := configure_alerts_validation { cpu := 80, memory := 85, disk := 90 }
    AlertMetric.cpu 50
  have h2 := configure_alerts_validation { cpu := 80, memory := 85, disk := 90 }
    AlertMetric.cpu 150
  refine ⟨(h1.1 (by norm_num)).1, h2.2.1 (by norm_num), ?_⟩
  exact h1.2.2.2 _ (fun m2 => by trivial)

/-- Embedding of `statistics.mean` on a list of numbers: sum divided by length. -/
def mean (l : List ℚ) : ℚ := l.sum / (l.length : ℚ)

/-- Direction of the CPU trend report (line 572). -/
inductive TrendDirection where
  | increasing
  | decreasing
  deriving DecidableEq, Repr

/-- The trend block of `SystemAnalyzer.display_historical_analysis`
(lines 569-573): only when the history holds at least 10 points, compare
`statistics.mean(cpu_values[-5:])` with `statistics.mean(cpu_values[:5])`
and report Increasing when the recent mean is strictly greater, else
Decreasing; with fewer than 10 points no trend (no direction) is produced. -/
def cpu_trend (snaps : List SystemSnapshot) :
    Option (ℚ × ℚ × TrendDirection) :=
  let cpu_values := snaps.map SystemSnapshot.cpu_percent
  if 10 ≤ cpu_values.length then
    let recent_cpu := mean (cpu_values.drop (cpu_values.length - 5))
    let older_cpu := mean (cpu_values.take 5)
    some (recent_cpu, older_cpu,
      if recent_cpu > older_cpu then .increasing else .decreasing)
  else none

/-- Claim C7: with fewer than 10 data points the trend operation reports no
direction (insufficient data, modelled as `none`); with at least 10 points
it reports the mean of the last 5 values, the mean of the first 5 values,
and the direction determined by comparing them. -/
theorem cpu_trend_spec (snaps : List SystemSnapshot) :
    (snaps.length < 10 → cpu_trend snaps = none) ∧
    (10 ≤ snaps.length →
      cpu_trend snaps =
        some (mean ((snaps.map SystemSnapshot.cpu_percent).drop (snaps.length - 5)),
          mean ((snaps.map SystemSnapshot.cpu_percent).take 5),
          if mean ((snaps.map SystemSnapshot.cpu_percent).drop (snaps.length - 5)) >
              mean ((snaps.map SystemSnapshot.cpu_percent).take 5)
            then TrendDirection.increasing else TrendDirection.decreasing)) := by
  constructor
  · intro h
    simp [cpu_trend, List.length_map]
    omega
  · intro h
    simp [cpu_trend, List.length_map, h]

/-- Witness for `cpu_trend_spec`: a single-point history reports no trend,
and a 10-point history of constant cpu 50 reports means 50 vs 50 and a
Decreasing (not strictly greater) direction. -/
theorem cpu_trend_spec_witness :
    cpu_trend [snap_with 1 0 0] = none ∧
    cpu_trend (List.replicate 10 (snap_with 50 0 0)) =
      some (50, 50, TrendDirection.decreasing) := by
  constructor
  · exact (cpu_trend_spec [snap_with 1 0 0]).1 (by norm_num)
  · have h := (cpu_trend_spec (List.replicate 10 (snap_with 50 0 0))).2 (by simp)
    rw [h]
    norm_num [mean, snap_with, List.replicate_succ]

/-- A JSON-representable primitive value of the wire records: Python str,
float, or int (json keeps floats and ints distinct). -/
inductive JsonVal where
  | str (s : String)
  | num (q : ℚ)
  | int (n : ℤ)
  deriving DecidableEq, Repr

/-- Embedding of `dataclasses.asdict` on a `SystemSnapshot` (used in `save_data`,
line 489): the flat record of the eleven fields, emitted in field
declaration order. -/
def snapshot_asdict (s : SystemSnapshot) : List (String × JsonVal) :=
  [("timestamp", .str s.timestamp),
   ("cpu_percent", .num s.cpu_percent),
   ("memory_percent", .num s.memory_percent),
   ("memory_used_gb", .num s.memory_used_gb),
   ("memory_total_gb", .num s.memory_total_gb),
   ("disk_percent", .num s.disk_percent),
   ("disk_used_gb", .num s.disk_used_gb),
   ("disk_total_gb", .num s.disk_total_gb),
   ("network_bytes_sent", .int s.network_bytes_sent),
   ("network_bytes_recv", .int s.network_bytes_recv),
   ("active_connections", .int s.active_connections)]

/-- Embedding of `SystemSnapshot(**snapshot)` in `load_historical_data` (line 479):
rebuild the dataclass from one flat record; a record that does not carry
exactly the expected fields fails (the `TypeError` branch, line 482). -/
def snapshot_fromdict (r : List (String × JsonVal)) : Option SystemSnapshot :=
  match r with
  | [("timestamp", .str t),
     ("cpu_percent", .num c),
     ("memory_percent", .num mp),
     ("memory_used_gb", .num mu),
     ("memory_total_gb", .num mt),
     ("disk_percent", .num dp),
     ("disk_used_gb", .num du),
     ("disk_total_gb", .num dt),
     ("network_bytes_sent", .int ns),
     ("network_bytes_recv", .int nr),
     ("active_connections", .int ac)] =>
    some { timestamp := t, cpu_percent := c, memory_percent := mp,
           memory_used_gb := mu, memory_total_gb := mt, disk_percent := dp,
           disk_used_gb := du, disk_total_gb := dt, network_bytes_sent := ns,
           network_bytes_recv := nr, active_connections := ac }
  | _ => none

/-- The serialization of `SystemAnalyzer.save_data` (lines 485-495): the
`snapshots` entry of the written document, `asdict` applied to the last 50
snapshots (`self.monitor.snapshots[-50:]`). -/
def save_data (snaps : List SystemSnapshot) : List (List (String × JsonVal)) :=
  (snaps.drop (snaps.length - 50)).map snapshot_asdict

/-- The deserialization of `SystemAnalyzer.load_historical_data`
(lines 471-483): rebuild every record; any malformed record makes the whole
load fail (the caught exception path). -/
def load_historical_data :
    List (List (String × JsonVal)) → Option (List SystemSnapshot)
  | [] => some []
  | r :: rs =>
    match snapshot_fromdict r, load_historical_data rs with
    | some s, some l => some (s :: l)
    | _, _ => none

lemma fromdict_asdict (s : SystemSnapshot) :
    snapshot_fromdict (snapshot_asdict s) = some s := rfl

lemma load_save_map (l : List SystemSnapshot) :
    load_historical_data (l.map snapshot_asdict) = some l := by
  induction l with
  | nil => rfl
  | cons s l ih =>
    simp [load_historical_data, fromdict_asdict, ih]

/-- Claim C8: serialization of a 5-snapshot history to the flat wire
records followed by deserialization yields the original sequence,
field-for-field. -/
theorem save_load_roundtrip (snaps : List SystemSnapshot)
    (h : snaps.length = 5) :
    load_historical_data (save_data snaps) = some snaps := by
  have hdrop : snaps.length - 50 = 0 := by omega
  rw [save_data, hdrop, List.drop_zero, load_save_map]

/-- Witness for `save_load_roundtrip`: a concrete 5-snapshot history
round-trips. -/
theorem save_load_roundtrip_witness :
    load_historical_data (save_data
      [snap_with 1 2 3, snap_with 4 5 6, snap_with 7 8 9,
       snap_with 10 11 12, snap_with 13 14 15]) =
    some [snap_with 1 2 3, snap_with 4 5 6, snap_with 7 8 9,
       snap_with 10 11 12, snap_with 13 14 15] :=
  save_load_roundtrip _ rfl

/-- Connection quality labels printed in `run_network_analysis`
(lines 605-610). -/
inductive Quality where
  | excellent
  | good
  | poor
  deriving DecidableEq, Repr

/-- The connectivity summary of `SystemAnalyzer.run_network_analysis`
(lines 595-610): keep the pings that are not None, and when any are present
classify `statistics.mean` of them — strictly below 50 excellent, else
strictly below 100 good, else poor; with no present ping no quality is
produced (`none`). -/
def connection_quality (pings : List (Option ℚ)) : Option Quality :=
  let valid_pings := pings.filterMap id
  if valid_pings ≠ [] then
    let avg_ping := mean valid_pings
    if avg_ping < 50 then some .excellent
    else if avg_ping < 100 then some .good
    else some .poor
  else none

/-- Claim C9: the connectivity quality is a function of the average of the
present round-trip times — strictly below 50 excellent, else strictly below
100 good, else poor — and with zero responding hosts no quality is produced
(the no-data case, modelled as `none`). -/
theorem connection_quality_spec (pings : List (Option ℚ)) :
    (pings.filterMap id = [] → connection_quality pings = none) ∧
    (pings.filterMap id ≠ [] →
      connection_quality pings =
        some (if mean (pings.filterMap id) < 50 then Quality.excellent
          else if mean (pings.filterMap id) < 100 then Quality.good
          else Quality.poor)) := by
  constructor
  · intro h
    simp [connection_quality, h]
  · intro h
    simp only [connection_quality, if_pos h]
    by_cases h1 : mean (pings.filterMap id) < 50
    · simp [h1]
    · by_cases h2 : mean (pings.filterMap id) < 100
      · simp [h1, h2]
      · simp [h1, h2]

/-- Witness for `connection_quality_spec`: pings [30ms, timeout, 50ms]
average to 40ms and classify excellent; a lone timeout yields no quality. -/
theorem connection_quality_spec_witness :
    connection_quality [some 30, none, some 50] = some Quality.excellent ∧
    connection_quality [(none : Option ℚ)] = none := by
  constructor
  · have h := (connection_quality_spec [some 30, none, some 50]).2 (by simp)
    rw [h]
    norm_num [mean, List.filterMap_cons]
  · exact (connection_quality_spec [(none : Option ℚ)]).1 (by simp)

/-- The `os.statvfs` result fields `get_disk_usage` reads (lines 190-192).
Python ints are unbounded, modelled as ℤ. -/
structure StatvfsResult where
  f_frsize : ℤ
  f_blocks : ℤ
  f_available : ℤ
  deriving DecidableEq, Repr

/-- Embedding of `SystemMonitor.get_disk_usage` on the Unix branch (lines 183-215): from
a statvfs result compute total/free/used bytes, convert to GB, and compute
the percentage with the division guarded by `if total_bytes > 0 else 0`;
when the OS query raises (`OSError`/`AttributeError`, modelled as `none`)
return the default triple (0.0, 0.0, 0.0).  Returns (percent, used_gb,
total_gb). -/
def get_disk_usage (res : Option StatvfsResult) : ℚ × ℚ × ℚ :=
  match res with
  | none => (0, 0, 0)
  | some sv =>
    let total_bytes : ℤ := sv.f_frsize * sv.f_blocks
    let free_bytes : ℤ := sv.f_frsize * sv.f_available
    let used_bytes : ℤ := total_bytes - free_bytes
    let total_gb : ℚ := (total_bytes : ℚ) / (1024 ^ 3)
    let used_gb : ℚ := (used_bytes : ℚ) / (1024 ^ 3)
    let percent : ℚ :=
      if total_bytes > 0 then ((used_bytes : ℚ) / (total_bytes : ℚ)) * 100 else 0
    (percent, used_gb, total_gb)

/-- Claim C10: the disk-usage operation is total over its possible inputs —
when the OS query fails it returns the default triple (0, 0, 0), and when
the reported total size is 0 the guarded division yields a usage percentage
of 0. -/
theorem get_disk_usage_safe :
    get_disk_usage none = (0, 0, 0) ∧
    ∀ sv : StatvfsResult, sv.f_frsize * sv.f_blocks = 0 →
      (get_disk_usage (some sv)).1 = 0 := by
  refine ⟨rfl, ?_⟩
  intro sv h
  simp [get_disk_usage, h]

/-- Witness for `get_disk_usage_safe`: a filesystem reporting zero blocks
has total size 0 and yields percentage 0, and a failed query yields the
default triple. -/
theorem get_disk_usage_safe_witness :
    get_disk_usage none = (0, 0, 0) ∧
    (get_disk_usage (some { f_frsize := 4096, f_blocks := 0, f_available := 0 })).1 = 0 :=
  ⟨get_disk_usage_safe.1,
   get_disk_usage_safe.2 { f_frsize := 4096, f_blocks := 0, f_available := 0 } (by norm_num)⟩
